import Mathlib

/-!
Shallow embedding of the research-tool repository:
- namespace RT embeds src/index.js (Semantic Scholar search, OpenRouter chat
  stages, and the generateReview synthesizer), with external providers given
  as a deterministic environment and every provider interaction recorded in
  an event trace.
- namespace FA embeds src/src/services/llmClient.js and
  src/src/controllers/analysisController.js (financial-analysis variant).
Machine behavior (JS truthiness, String.split on a comma/whitespace regex,
Array.slice, `||` defaulting) is modelled explicitly.
-/

namespace RT

/-- An author record as returned by the search provider (field `name`). -/
structure Author where
  name : String
deriving DecidableEq

/-- A document as returned by the Semantic Scholar search
(fields requested in src/index.js: title, abstract, url, authors).
`abstract` is `none` when the field is absent/null in the response. -/
structure Document where
  title : String
  abstract : Option String
  url : String
  authors : List Author
deriving DecidableEq

/-- A chat message `{role, content}` sent to the completion provider. -/
structure Msg where
  role : String
  content : String
deriving DecidableEq

/-- Observable external events of one run: an HTTP search request,
a timed wait (`setTimeout`), or a completion (chat) request. -/
inductive Ev where
  | search (query : String) (limit : Nat)
  | wait (ms : Nat)
  | chat (messages : List Msg) (model : String) (maxTokens : Nat)
deriving DecidableEq

/-- Response of one HTTP attempt against the search provider:
success with a document list, an HTTP error with a status code
(`err.response.status`), or a network error with no response object. -/
inductive SearchResp where
  | ok (docs : List Document)
  | httpError (status : Nat)
  | networkError
deriving DecidableEq

/-- Failure propagated out of `searchPapers`: the rethrown HTTP or network
error, or `diverge` marking that the modelled fuel ran out while the source
would still be looping in its unbounded 429 retry. -/
inductive SearchErr where
  | httpError (status : Nat)
  | networkError
  | diverge
deriving DecidableEq

/-- Deterministic environment standing for the external world:
`searchResp q l a` is the response of the (a+1)-th HTTP attempt of one
`searchPapers q l` invocation; `chat` is the raw completion text returned
by the OpenRouter endpoint for given messages/model/max_tokens. -/
structure Env where
  searchResp : String → Nat → Nat → SearchResp
  chat : List Msg → String → Nat → String

/-- JS `\s` on the ASCII range (space, tab, line feed, vertical tab,
form feed, carriage return). -/
def jsWsChar (c : Char) : Bool :=
  c = ' ' || c = '\t' || c = '\n' || c = '\x0b' || c = '\x0c' || c = '\r'

/-- JS `String.prototype.trim()`: strips whitespace from both ends
(computable structural recursion over the character list). -/
def jsTrim (s : String) : String :=
  String.mk (((s.data.dropWhile jsWsChar).reverse.dropWhile jsWsChar).reverse)

/-- `openRouterChat(messages, model, max_tokens)` from src/index.js:
posts the chat request and returns the message content trimmed. -/
def openRouterChat (env : Env) (messages : List Msg) (model : String) (maxTokens : Nat) : String × List Ev :=
  (jsTrim (env.chat messages model maxTokens), [Ev.chat messages model maxTokens])

/-- The body of `searchPapers` from src/index.js: try the GET; on an HTTP 429
wait 5000 ms and recurse; rethrow any other failure. `fuel` bounds the
recursion depth of the model (the source retries without bound). -/
def searchPapersAux (env : Env) (query : String) (limit : Nat) : Nat → Nat → Except SearchErr (List Document) × List Ev
  | _, 0 => (Except.error SearchErr.diverge, [])
  | attempt, fuel + 1 =>
    match env.searchResp query limit attempt with
    | SearchResp.ok docs => (Except.ok docs, [Ev.search query limit])
    | SearchResp.httpError status =>
      if status = 429 then
        let r := searchPapersAux env query limit (attempt + 1) fuel
        (r.1, Ev.search query limit :: Ev.wait 5000 :: r.2)
      else
        (Except.error (SearchErr.httpError status), [Ev.search query limit])
    | SearchResp.networkError => (Except.error SearchErr.networkError, [Ev.search query limit])

/-- `searchPapers(query, limit)` from src/index.js, starting at attempt 0. -/
def searchPapers (env : Env) (fuel : Nat) (query : String) (limit : Nat) : Except SearchErr (List Document) × List Ev :=
  searchPapersAux env query limit 0 fuel

/-- JS truthiness of the `abstract` field: null/undefined and the empty
string are falsy, every other string truthy. -/
def jsTruthy : Option String → Bool
  | none => false
  | some s => s != ""

/-- `summarizeAbstract(abstract)` from src/index.js. -/
def summarizeAbstract (env : Env) (abstract : String) : String × List Ev :=
  openRouterChat env [⟨"user", "Summarize the following abstract in 3 sentences:\n" ++ abstract⟩] "gpt-3.5-turbo" 150

/-- The per-document summary of the `generateReview` loop:
`p.abstract ? await summarizeAbstract(p.abstract) : 'No abstract available.'`. -/
def docSummary (env : Env) (p : Document) : String × List Ev :=
  if jsTruthy p.abstract then summarizeAbstract env (p.abstract.getD "") else ("No abstract available.", [])

/-- `p.authors.map(a => a.name).join(', ')`. -/
def joinAuthors (authors : List Author) : String :=
  String.intercalate ", " (authors.map Author.name)

/-- The report section appended for one document by the `generateReview` loop. -/
def docSectionStr (env : Env) (p : Document) : String :=
  "## " ++ p.title ++ "\n" ++ "**Authors:** " ++ joinAuthors p.authors ++ "\n" ++ "**URL:** " ++ p.url ++ "\n\n" ++ "**Summary:** " ++ (docSummary env p).1 ++ "\n\n"

/-- The `for (const p of papers)` loop of `generateReview`: accumulates the
per-document sections (in ranking order) and the completion events issued. -/
def reviewLoop (env : Env) : List Document → String × List Ev
  | [] => ("", [])
  | p :: ps =>
    let s := docSummary env p
    let rest := reviewLoop env ps
    ("## " ++ p.title ++ "\n" ++ "**Authors:** " ++ joinAuthors p.authors ++ "\n" ++ "**URL:** " ++ p.url ++ "\n\n" ++ "**Summary:** " ++ s.1 ++ "\n\n" ++ rest.1, s.2 ++ rest.2)

/-- `papers.map(p => p.abstract || '')`: the argument later passed to
`discoverGaps`, one entry per document, empty string when falsy. -/
def gapsArgOf (papers : List Document) : List String :=
  papers.map (fun p => if jsTruthy p.abstract then p.abstract.getD "" else "")

/-- The message list built by `discoverGaps(abstracts)` (abstracts joined
with a newline into one user prompt). -/
def gapsMessages (abstracts : List String) : List Msg :=
  [⟨"user", "Identify 3 open research gaps based on these abstracts:\n" ++ String.intercalate "\n" abstracts⟩]

/-- `discoverGaps(abstracts)` from src/index.js. -/
def discoverGaps (env : Env) (abstracts : List String) : String × List Ev :=
  openRouterChat env (gapsMessages abstracts) "gpt-3.5-turbo" 200

/-- Worker for `String.prototype.split(/,\s*/)`: `skip` is true while the
greedy `\s*` of a just-matched separator is still consuming whitespace,
`acc` holds the current piece reversed. -/
def splitCommaWsAux (skip : Bool) (acc : List Char) : List Char → List String
  | [] => [String.mk acc.reverse]
  | c :: rest =>
    if skip && jsWsChar c then splitCommaWsAux true acc rest
    else if c = ',' then String.mk acc.reverse :: splitCommaWsAux true [] rest
    else splitCommaWsAux false (c :: acc) rest

/-- `s.split(/,\s*/)` as used by `devilAdvocate` in src/index.js. -/
def jsSplitCommaWs (s : String) : List String :=
  splitCommaWsAux false [] s.data

/-- The keyword post-processing of `devilAdvocate`:
`kwText.split(/,\s*/).slice(0, limit)`. -/
def opposingKeywords (kwText : String) (limit : Nat) : List String :=
  (jsSplitCommaWs kwText).take limit

/-- The prompt messages of `devilAdvocate(topic, ...)`. -/
def devilMessages (topic : String) : List Msg :=
  [⟨"user", "List keywords for viewpoints opposing research on: " ++ topic⟩]

/-- The keyword loop of `devilAdvocate`: for each keyword search with
limit 1 and push the first result when the result list is non-empty;
a search failure propagates out of the whole loop. -/
def devilLoop (env : Env) (fuel : Nat) : List String → Except SearchErr (List Document) × List Ev
  | [] => (Except.ok [], [])
  | kw :: kws =>
    let found := searchPapers env fuel kw 1
    match found.1 with
    | Except.error e => (Except.error e, found.2)
    | Except.ok fd =>
      let rest := devilLoop env fuel kws
      match rest.1 with
      | Except.error e => (Except.error e, found.2 ++ rest.2)
      | Except.ok ops =>
        (Except.ok (match fd with | [] => ops | d :: _ => d :: ops), found.2 ++ rest.2)

/-- `devilAdvocate(topic, limit)` from src/index.js. -/
def devilAdvocate (env : Env) (fuel : Nat) (topic : String) (limit : Nat) : Except SearchErr (List Document) × List Ev :=
  let kwChat := openRouterChat env (devilMessages topic) "gpt-3.5-turbo" 50
  let lp := devilLoop env fuel (opposingKeywords kwChat.1 limit)
  (lp.1, kwChat.2 ++ lp.2)

/-- Concatenation of a list of report fragments (the incremental `report +=`
appends of the source, grouped to the right). -/
def concatList : List String → String
  | [] => ""
  | s :: rest => s ++ concatList rest

/-- `generateReview(topic, limit)` from src/index.js: initial search, the
per-document summary loop, the research-gaps stage over
`papers.map(p => p.abstract || '')`, and the opposing-viewpoints stage. -/
def generateReview (env : Env) (fuel : Nat) (topic : String) (limit : Nat) : Except SearchErr String × List Ev :=
  let sp := searchPapers env fuel topic limit
  match sp.1 with
  | Except.error e => (Except.error e, sp.2)
  | Except.ok papers =>
    let lp := reviewLoop env papers
    let gaps := discoverGaps env (gapsArgOf papers)
    let dv := devilAdvocate env fuel topic 3
    match dv.1 with
    | Except.error e => (Except.error e, sp.2 ++ lp.2 ++ gaps.2 ++ dv.2)
    | Except.ok opposing =>
      (Except.ok ("# Literature Review on " ++ topic ++ "\n\n" ++ lp.1
        ++ "# Research Gaps\n" ++ gaps.1 ++ "\n\n"
        ++ "# Opposing Viewpoints\n"
        ++ concatList (opposing.map (fun op => "- **" ++ op.title ++ "**: " ++ op.url ++ "\n"))),
       sp.2 ++ lp.2 ++ gaps.2 ++ dv.2)


end RT

namespace FA

/-- A thrown JS error as classified by src/src/services/llmClient.js:
optional HTTP `status` and a `message`. -/
structure JsError where
  status : Option Nat
  message : String
deriving DecidableEq

/-- Observable events of the retry helper: an invocation of the wrapped
operation (with its 1-based attempt number) or a timed wait in ms. -/
inductive REv where
  | invoke (attempt : Nat)
  | wait (ms : Nat)
deriving DecidableEq

/-- Result of `retryWithBackoff`: the operation value, a rethrown error, or
`undef` for the `undefined` the source returns when the loop never runs. -/
inductive RetryOutcome (α : Type) where
  | success (v : α)
  | failure (e : JsError)
  | undef
deriving DecidableEq

/-- The `for (attempt = 1; attempt <= maxRetries; attempt++)` loop of
`retryWithBackoff` in src/src/services/llmClient.js; `r` counts the attempts
still allowed after the current one (so `r = 0` is `attempt === maxRetries`).
On a non-final, non-401 failure it waits `2^attempt * 1000` ms and retries. -/
def retryGo {α : Type} (fn : Nat → Except JsError α) : Nat → Nat → RetryOutcome α × List REv
  | _, 0 => (RetryOutcome.undef, [])
  | attempt, r + 1 =>
    match fn attempt with
    | Except.ok v => (RetryOutcome.success v, [REv.invoke attempt])
    | Except.error e =>
      if r = 0 ∨ e.status = some 401 then (RetryOutcome.failure e, [REv.invoke attempt])
      else
        let next := retryGo fn (attempt + 1) r
        (next.1, REv.invoke attempt :: REv.wait (2 ^ attempt * 1000) :: next.2)

/-- `retryWithBackoff(fn, maxRetries)` from src/src/services/llmClient.js.
`fn a` is the outcome of the operation on its a-th invocation. A negative or
zero `maxRetries` never enters the loop. -/
def retryWithBackoff {α : Type} (fn : Nat → Except JsError α) (maxRetries : Int) : RetryOutcome α × List REv :=
  retryGo fn 1 maxRetries.toNat

/-- The catch-block of `analyzeFinancialData` in llmClient.js: maps the
caught error to the message of the `Error` it rethrows. -/
def llmErrorToMessage (e : JsError) : String :=
  match e.status with
  | some 429 => "Rate limit exceeded. Please try again in a few moments."
  | some 401 => "Invalid API key. Please check your OpenRouter configuration."
  | some s => if 500 ≤ s then "OpenRouter service temporarily unavailable. Please try again later." else "Analysis failed: " ++ e.message
  | none => "Analysis failed: " ++ e.message

/-- Whether `pat` occurs as a contiguous sublist of `s`. -/
def hasSubstr : List Char → List Char → Bool
  | [], pat => pat.isEmpty
  | c :: rest, pat => pat.isPrefixOf (c :: rest) || hasSubstr rest pat

/-- JS `String.prototype.includes`. -/
def jsIncludes (s pat : String) : Bool :=
  hasSubstr s.data pat.data

/-- Environment of the analysis controller: the excluded collaborators
(file read, CSV/JSON parsing, validation, `JSON.parse`) and the completion
provider. `providerResp d` is the provider response to the single chat
request built from parsed data `d`. Parse results model thrown exceptions
as `Except.error`; validation failure carries the `errors` list. -/
structure CtrlEnv where
  readFile : String → String
  parseCSV : String → Except String String
  parseJSON : String → Except String String
  validate : String → Except (List String) Unit
  providerResp : String → Except JsError String
  jsonParse : String → Except String String

/-- `analyzeFinancialData(data)` from llmClient.js: one chat request (no
retry wrapper in this path), `JSON.parse` of the content inside the same
try, and the catch-block error mapping. Second component counts the
completion-provider calls made. -/
def analyzeFinancialDataSvc (env : CtrlEnv) (parsed : String) : Except String String × Nat :=
  (match env.providerResp parsed with
   | Except.error e => Except.error (llmErrorToMessage e)
   | Except.ok content =>
     match env.jsonParse content with
     | Except.error m => Except.error (llmErrorToMessage ⟨none, m⟩)
     | Except.ok a => Except.ok a,
   1)

/-- `analysisController.analyzeFinancialData(req, res)`: returns the HTTP
status sent and the number of completion-provider calls made. The catch
block maps an error whose message includes "Rate limited" to 429 and
everything else to 500. -/
def analyzeDataHandler (env : CtrlEnv) (data : Option String) (format : String) : Nat × Nat :=
  match data with
  | none => (400, 0)
  | some d =>
    match (if format = "csv" then env.parseCSV d else env.parseJSON d) with
    | Except.error _ => (400, 0)
    | Except.ok parsed =>
      match env.validate parsed with
      | Except.error _ => (400, 0)
      | Except.ok _ =>
        let svc := analyzeFinancialDataSvc env parsed
        match svc.1 with
        | Except.ok _ => (200, svc.2)
        | Except.error m => (if jsIncludes m "Rate limited" then 429 else 500, svc.2)

/-- An uploaded file as seen by the handler (`req.file`). -/
structure UploadedFile where
  path : String
  originalname : String
  size : Nat
deriving DecidableEq

/-- JS `String.prototype.split('.')` (single-character separator) as a
structural recursion over the character list. -/
def splitDotAux (acc : List Char) : List Char → List String
  | [] => [String.mk acc.reverse]
  | c :: rest =>
    if c = '.' then String.mk acc.reverse :: splitDotAux [] rest
    else splitDotAux (c :: acc) rest

/-- JS `String.prototype.toLowerCase()` (character-wise). -/
def jsToLower (s : String) : String :=
  String.mk (s.data.map Char.toLower)

/-- `req.file.originalname.split('.').pop().toLowerCase()`. -/
def jsExtension (name : String) : String :=
  jsToLower ((splitDotAux [] name.data).getLastD "")

/-- The part of `analyzeFile` after a successful parse: the
`fs.unlinkSync` cleanup, validation, and the LLM call; the outer catch
turns any thrown error into a 500 (re-checking `fs.existsSync` first, the
file being already gone by then). Second component: whether the uploaded
temporary file has been removed by the end of handling. -/
def analyzeFileAfterParse (env : CtrlEnv) (parsed : String) : Nat × Bool :=
  match env.validate parsed with
  | Except.error _ => (400, true)
  | Except.ok _ =>
    match (analyzeFinancialDataSvc env parsed).1 with
    | Except.error _ => (500, true)
    | Except.ok _ => (200, true)

/-- `analysisController.analyzeFile(req, res)`: reads the uploaded file,
dispatches on the lower-cased extension, unlinks the temp file after a
successful parse, and on a thrown error unlinks in the catch block; an
unsupported extension returns 400 directly. Result: HTTP status and
whether the temporary file was removed. -/
def analyzeFileHandler (env : CtrlEnv) (file : Option UploadedFile) : Nat × Bool :=
  match file with
  | none => (400, false)
  | some f =>
    let content := env.readFile f.path
    let ext := jsExtension f.originalname
    if ext = "csv" then
      match env.parseCSV content with
      | Except.error _ => (500, true)
      | Except.ok parsed => analyzeFileAfterParse env parsed
    else if ext = "json" then
      match env.parseJSON content with
      | Except.error _ => (500, true)
      | Except.ok parsed => analyzeFileAfterParse env parsed
    else (400, false)

end FA

namespace RT

/-- Concrete document with a non-empty abstract, for closed witnesses. -/
def wDocA : Document := ⟨"Paper A", some "Abstract A", "http://a", [⟨"Ann"⟩, ⟨"Bob"⟩]⟩

/-- Concrete document with an absent abstract, for closed witnesses. -/
def wDocB : Document := ⟨"Paper B", none, "http://b", [⟨"Cid"⟩]⟩

/-- Concrete document returned by the opposing-keyword searches. -/
def wDocK : Document := ⟨"Paper K", some "Abstract K", "http://k", [⟨"Kim"⟩]⟩

/-- Witness environment: the topic search returns two documents, every other
search one document, and the devil-advocate prompt yields four keywords. -/
def wEnv : Env :=
  { searchResp := fun q _ _ =>
      if q = "graph databases" then SearchResp.ok [wDocA, wDocB] else SearchResp.ok [wDocK]
  , chat := fun ms _ _ =>
      if ms = devilMessages "graph databases" then "k1, k2, k3, k4" else "TEXT" }

/-- Devil-advocate trace produced by `wEnv` on topic "graph databases". -/
def wDevTr : List Ev :=
  [Ev.chat (devilMessages "graph databases") "gpt-3.5-turbo" 50,
   Ev.search "k1" 1, Ev.search "k2" 1, Ev.search "k3" 1]

/-- Witness environment whose first search attempt is rate-limited and whose
second attempt succeeds. -/
def wEnvRL : Env :=
  { searchResp := fun _ _ a => if a = 0 then SearchResp.httpError 429 else SearchResp.ok [wDocK]
  , chat := fun _ _ _ => "" }

/-- Witness environment whose searches always fail with HTTP 500. -/
def wEnvErr : Env :=
  { searchResp := fun _ _ _ => SearchResp.httpError 500
  , chat := fun _ _ _ => "" }

end RT

namespace FA

/-- Witness controller environment: parsing and validation succeed, and the
completion provider rejects the analysis request with HTTP 429. -/
def wCtrlEnv : CtrlEnv :=
  { readFile := fun _ => "{}"
  , parseCSV := fun s => Except.ok s
  , parseJSON := fun s => Except.ok s
  , validate := fun _ => Except.ok ()
  , providerResp := fun _ => Except.error ⟨some 429, "Request failed with status code 429"⟩
  , jsonParse := fun s => Except.ok s }

/-- Concrete uploaded file with an unsupported extension. -/
def wUpload : UploadedFile := ⟨"/tmp/upload-123", "data.txt", 42⟩

/-- Witness operation that fails with HTTP 500 on its first two invocations
and succeeds on the third. -/
def wFn : Nat → Except JsError Nat :=
  fun a => if a ≤ 2 then Except.error ⟨some 500, "boom"⟩ else Except.ok 7

/-- Witness operation that always fails with HTTP 401. -/
def wFn401 : Nat → Except JsError Nat :=
  fun _ => Except.error ⟨some 401, "auth"⟩

end FA

namespace RT

section RTLemmas

variable (env : Env) (q : String) (l : Nat)

lemma spAux_ok (a f : Nat) (ds : List Document) (h : env.searchResp q l a = SearchResp.ok ds) :
    searchPapersAux env q l a (f + 1) = (Except.ok ds, [Ev.search q l]) := by
  simp [searchPapersAux, h]

lemma spAux_429 (a f : Nat) (h : env.searchResp q l a = SearchResp.httpError 429) :
    searchPapersAux env q l a (f + 1) =
      ((searchPapersAux env q l (a + 1) f).1,
        Ev.search q l :: Ev.wait 5000 :: (searchPapersAux env q l (a + 1) f).2) := by
  simp [searchPapersAux, h]

lemma spAux_http (a f s : Nat) (h : env.searchResp q l a = SearchResp.httpError s) (hs : s ≠ 429) :
    searchPapersAux env q l a (f + 1) = (Except.error (SearchErr.httpError s), [Ev.search q l]) := by
  simp [searchPapersAux, h, hs]

lemma spAux_net (a f : Nat) (h : env.searchResp q l a = SearchResp.networkError) :
    searchPapersAux env q l a (f + 1) = (Except.error SearchErr.networkError, [Ev.search q l]) := by
  simp [searchPapersAux, h]

lemma spAux_429_shift :
    ∀ (k a f : Nat), (∀ i, i < k → env.searchResp q l (a + i) = SearchResp.httpError 429) →
      searchPapersAux env q l a (k + f) =
        ((searchPapersAux env q l (a + k) f).1,
          (List.replicate k [Ev.search q l, Ev.wait 5000]).flatten ++ (searchPapersAux env q l (a + k) f).2) := by
  intro k
  induction k with
  | zero => intro a f _; simp
  | succ k ih =>
    intro a f h
    have h0 : env.searchResp q l a = SearchResp.httpError 429 := by
      simpa using h 0 (Nat.succ_pos k)
    have hre : k + 1 + f = (k + f) + 1 := by omega
    rw [hre, spAux_429 env q l a (k + f) h0,
      ih (a + 1) f (fun i hi => by
        have := h (i + 1) (by omega)
        simpa [Nat.add_assoc, Nat.add_comm 1 i] using this)]
    have ha : a + 1 + k = a + (k + 1) := by omega
    simp [ha, List.replicate_succ]

lemma spAux_ok_mem :
    ∀ (f a : Nat) (ds : List Document) (tr : List Ev),
      searchPapersAux env q l a f = (Except.ok ds, tr) →
      (∃ k, env.searchResp q l k = SearchResp.ok ds) ∧ Ev.search q l ∈ tr := by
  intro f
  induction f with
  | zero => intro a ds tr h; simp [searchPapersAux] at h
  | succ f ih =>
    intro a ds tr h
    cases hr : env.searchResp q l a with
    | ok docs =>
      rw [spAux_ok env q l a f docs hr] at h
      simp only [Prod.mk.injEq, Except.ok.injEq] at h
      obtain ⟨h1, h2⟩ := h
      refine ⟨⟨a, by rw [hr, h1]⟩, ?_⟩
      rw [← h2]
      exact List.mem_singleton.mpr rfl
    | httpError s =>
      by_cases hs : s = 429
      · subst hs
        rw [spAux_429 env q l a f hr] at h
        cases haux : searchPapersAux env q l (a + 1) f with
        | mk res tr2 =>
          rw [haux] at h
          simp only [Prod.mk.injEq] at h
          obtain ⟨h1, h2⟩ := h
          obtain ⟨hk, _⟩ := ih (a + 1) ds tr2 (by rw [haux]; exact congrArg (fun r => (r, tr2)) h1)
          exact ⟨hk, by rw [← h2]; exact List.mem_cons_self _ _⟩
      · rw [spAux_http env q l a f s hr hs] at h
        simp at h
    | networkError =>
      rw [spAux_net env q l a f hr] at h
      simp at h

lemma searchPapers_ok_mem (fuel : Nat) (ds : List Document) (tr : List Ev)
    (h : searchPapers env fuel q l = (Except.ok ds, tr)) :
    (∃ k, env.searchResp q l k = SearchResp.ok ds) ∧ Ev.search q l ∈ tr :=
  spAux_ok_mem env q l fuel 0 ds tr h

lemma searchPapers_first_attempt (fuel : Nat) (ds : List Document)
    (hfuel : 0 < fuel) (h : env.searchResp q l 0 = SearchResp.ok ds) :
    searchPapers env fuel q l = (Except.ok ds, [Ev.search q l]) := by
  cases fuel with
  | zero => omega
  | succ f => exact spAux_ok env q l 0 f ds h

end RTLemmas

section RTLoopLemmas

variable (env : Env)

lemma reviewLoop_append (xs ys : List Document) :
    reviewLoop env (xs ++ ys) =
      ((reviewLoop env xs).1 ++ (reviewLoop env ys).1, (reviewLoop env xs).2 ++ (reviewLoop env ys).2) := by
  induction xs with
  | nil => simp [reviewLoop]
  | cons p ps ih => simp [reviewLoop, ih, String.append_assoc]

lemma reviewLoop_fst (docs : List Document) :
    (reviewLoop env docs).1 = concatList (docs.map (docSectionStr env)) := by
  induction docs with
  | nil => simp [reviewLoop, concatList]
  | cons p ps ih => simp [reviewLoop, concatList, docSectionStr, ih, String.append_assoc]

lemma generateReview_ok_eq (fuel : Nat) (topic : String) (limit : Nat)
    (papers ops : List Document) (tr1 tr2 : List Ev)
    (hsp : searchPapers env fuel topic limit = (Except.ok papers, tr1))
    (hdv : devilAdvocate env fuel topic 3 = (Except.ok ops, tr2)) :
    generateReview env fuel topic limit =
      (Except.ok ("# Literature Review on " ++ topic ++ "\n\n" ++ (reviewLoop env papers).1
        ++ "# Research Gaps\n" ++ (discoverGaps env (gapsArgOf papers)).1 ++ "\n\n"
        ++ "# Opposing Viewpoints\n"
        ++ concatList (ops.map (fun op => "- **" ++ op.title ++ "**: " ++ op.url ++ "\n"))),
       tr1 ++ (reviewLoop env papers).2
         ++ Ev.chat (gapsMessages (gapsArgOf papers)) "gpt-3.5-turbo" 200 :: tr2) := by
  simp [generateReview, hsp, hdv, discoverGaps, openRouterChat]

lemma generateReview_trace_eq (fuel : Nat) (topic : String) (limit : Nat)
    (papers : List Document) (tr1 : List Ev)
    (hsp : searchPapers env fuel topic limit = (Except.ok papers, tr1)) :
    (generateReview env fuel topic limit).2 =
      tr1 ++ (reviewLoop env papers).2
        ++ Ev.chat (gapsMessages (gapsArgOf papers)) "gpt-3.5-turbo" 200
          :: (devilAdvocate env fuel topic 3).2 := by
  cases hdv : devilAdvocate env fuel topic 3 with
  | mk r tr2 =>
    cases r with
    | error e => simp [generateReview, hsp, hdv, discoverGaps, openRouterChat]
    | ok ops => simp [generateReview, hsp, hdv, discoverGaps, openRouterChat]

lemma jsOr_abstract (o : Option String) :
    (if jsTruthy o then o.getD "" else "") = o.getD "" := by
  cases o with
  | none => rfl
  | some a => by_cases ha : a = "" <;> simp [jsTruthy, ha]

end RTLoopLemmas

section RTDevilLemmas

variable (env : Env)

lemma devilLoop_mem (fuel : Nat) :
    ∀ (kws : List String) (ops : List Document) (tr : List Ev),
      devilLoop env fuel kws = (Except.ok ops, tr) →
      ∀ d, d ∈ ops →
        ∃ qq k ds, env.searchResp qq 1 k = SearchResp.ok ds ∧ d ∈ ds ∧ Ev.search qq 1 ∈ tr := by
  intro kws
  induction kws with
  | nil =>
    intro ops tr h d hd
    simp only [devilLoop, Prod.mk.injEq, Except.ok.injEq] at h
    obtain ⟨h1, _⟩ := h
    rw [← h1] at hd
    simp at hd
  | cons kw kws ih =>
    intro ops tr h d hd
    cases hf : searchPapers env fuel kw 1 with
    | mk fres ftr =>
      cases fres with
      | error e => simp [devilLoop, hf] at h
      | ok fd =>
        cases hrest : devilLoop env fuel kws with
        | mk rres rtr =>
          cases rres with
          | error e => simp [devilLoop, hf, hrest] at h
          | ok rops =>
            simp only [devilLoop, hf, hrest, Prod.mk.injEq, Except.ok.injEq] at h
            obtain ⟨h1, h2⟩ := h
            cases fd with
            | nil =>
              rw [← h1] at hd
              obtain ⟨qq, k, ds, hk, hds, hmem⟩ := ih rops rtr hrest d hd
              exact ⟨qq, k, ds, hk, hds, by rw [← h2]; exact List.mem_append_right ftr hmem⟩
            | cons d0 fd0 =>
              rw [← h1] at hd
              rcases List.mem_cons.mp hd with hd0 | hdr
              · obtain ⟨⟨k, hk⟩, hmem⟩ := searchPapers_ok_mem env kw 1 fuel (d0 :: fd0) ftr hf
                refine ⟨kw, k, d0 :: fd0, hk, ?_, ?_⟩
                · rw [hd0]; exact List.mem_cons_self _ _
                · rw [← h2]; exact List.mem_append_left rtr hmem
              · obtain ⟨qq, k, ds, hk, hds, hmem⟩ := ih rops rtr hrest d hdr
                exact ⟨qq, k, ds, hk, hds, by rw [← h2]; exact List.mem_append_right ftr hmem⟩

lemma devilAdvocate_ok_parts (fuel : Nat) (topic : String) (limit : Nat)
    (ops : List Document) (tr : List Ev)
    (h : devilAdvocate env fuel topic limit = (Except.ok ops, tr)) :
    ∃ ltr,
      devilLoop env fuel
          (opposingKeywords (openRouterChat env (devilMessages topic) "gpt-3.5-turbo" 50).1 limit)
        = (Except.ok ops, ltr) ∧
      tr = Ev.chat (devilMessages topic) "gpt-3.5-turbo" 50 :: ltr := by
  cases hlp : devilLoop env fuel
      (opposingKeywords (openRouterChat env (devilMessages topic) "gpt-3.5-turbo" 50).1 limit) with
  | mk r ltr =>
    have hlp2 : devilLoop env fuel
        (opposingKeywords (jsTrim (env.chat (devilMessages topic) "gpt-3.5-turbo" 50)) limit)
      = (r, ltr) := hlp
    simp only [devilAdvocate, openRouterChat] at h
    rw [hlp2] at h
    simp only [Prod.mk.injEq, List.singleton_append] at h
    obtain ⟨h1, h2⟩ := h
    exact ⟨ltr, by rw [h1], by rw [← h2]⟩

end RTDevilLemmas

/-- C1: for a non-empty topic, when the first attempt of the initial search
returns `docs` and the opposing-viewpoints stage succeeds, `generateReview`
issues exactly one initial search request carrying the requested limit (the
search stage contributes the single event `Ev.search topic limit`), and the
returned report is the header followed by exactly one summary section per
returned document, in the order of the search result, followed by the gaps
and opposing-viewpoints sections. -/
theorem generateReview_one_initial_search_ordered_sections
    (env : Env) (fuel : Nat) (topic : String) (limit : Nat)
    (docs ops : List Document) (devTrace : List Ev)
    (_htopic : topic ≠ "")
    (hfuel : 0 < fuel)
    (hsearch : env.searchResp topic limit 0 = SearchResp.ok docs)
    (hdevil : devilAdvocate env fuel topic 3 = (Except.ok ops, devTrace)) :
    searchPapers env fuel topic limit = (Except.ok docs, [Ev.search topic limit]) ∧
    (generateReview env fuel topic limit).1 =
      Except.ok ("# Literature Review on " ++ topic ++ "\n\n"
        ++ concatList (docs.map (docSectionStr env))
        ++ "# Research Gaps\n" ++ (discoverGaps env (gapsArgOf docs)).1 ++ "\n\n"
        ++ "# Opposing Viewpoints\n"
        ++ concatList (ops.map (fun op => "- **" ++ op.title ++ "**: " ++ op.url ++ "\n"))) ∧
    (generateReview env fuel topic limit).2 =
      Ev.search topic limit ::
        ((reviewLoop env docs).2
          ++ Ev.chat (gapsMessages (gapsArgOf docs)) "gpt-3.5-turbo" 200 :: devTrace) := by
  have hsp := searchPapers_first_attempt env topic limit fuel docs hfuel hsearch
  have hmain := generateReview_ok_eq env fuel topic limit docs ops [Ev.search topic limit] devTrace hsp hdevil
  refine ⟨hsp, ?_, ?_⟩
  · rw [hmain, ← reviewLoop_fst]
  · rw [hmain]
    rfl

/-- C1 witness: the theorem applied to the concrete environment `wEnv`,
topic "graph databases", limit 2. -/
theorem generateReview_one_initial_search_witness :
    searchPapers wEnv 1 "graph databases" 2 =
      (Except.ok [wDocA, wDocB], [Ev.search "graph databases" 2]) ∧
    (generateReview wEnv 1 "graph databases" 2).1 =
      Except.ok ("# Literature Review on " ++ "graph databases" ++ "\n\n"
        ++ concatList ([wDocA, wDocB].map (docSectionStr wEnv))
        ++ "# Research Gaps\n" ++ (discoverGaps wEnv (gapsArgOf [wDocA, wDocB])).1 ++ "\n\n"
        ++ "# Opposing Viewpoints\n"
        ++ concatList ([wDocK, wDocK, wDocK].map (fun op => "- **" ++ op.title ++ "**: " ++ op.url ++ "\n"))) ∧
    (generateReview wEnv 1 "graph databases" 2).2 =
      Ev.search "graph databases" 2 ::
        ((reviewLoop wEnv [wDocA, wDocB]).2
          ++ Ev.chat (gapsMessages (gapsArgOf [wDocA, wDocB])) "gpt-3.5-turbo" 200 :: wDevTr) :=
  generateReview_one_initial_search_ordered_sections wEnv 1 "graph databases" 2
    [wDocA, wDocB] [wDocK, wDocK, wDocK] wDevTr
    (by decide) (by decide) (by decide) (by rfl)

/-- C2: for a document whose abstract is absent or empty, the summary of its
section is exactly the literal "No abstract available.", its stage issues no
completion call, and within any surrounding review loop the document
contributes no events at all. -/
theorem summary_placeholder_no_completion_call (env : Env) (p : Document)
    (h : jsTruthy p.abstract = false) :
    docSummary env p = ("No abstract available.", []) ∧
    docSectionStr env p =
      "## " ++ p.title ++ "\n" ++ "**Authors:** " ++ joinAuthors p.authors ++ "\n"
        ++ "**URL:** " ++ p.url ++ "\n\n" ++ "**Summary:** " ++ "No abstract available." ++ "\n\n" ∧
    ∀ pre post : List Document,
      (reviewLoop env (pre ++ p :: post)).2 = (reviewLoop env pre).2 ++ (reviewLoop env post).2 := by
  have hd : docSummary env p = ("No abstract available.", []) := by
    simp [docSummary, h]
  refine ⟨hd, ?_, ?_⟩
  · simp [docSectionStr, hd]
  · intro pre post
    rw [reviewLoop_append]
    simp [reviewLoop, hd]

/-- C2 witness: the theorem applied to `wDocB` (absent abstract) inside a
concrete loop. -/
theorem summary_placeholder_witness :
    docSummary wEnv wDocB = ("No abstract available.", []) ∧
    (reviewLoop wEnv ([wDocA] ++ wDocB :: [wDocK])).2 =
      (reviewLoop wEnv [wDocA]).2 ++ (reviewLoop wEnv [wDocK]).2 :=
  ⟨(summary_placeholder_no_completion_call wEnv wDocB (by decide)).1,
   (summary_placeholder_no_completion_call wEnv wDocB (by decide)).2.2 [wDocA] [wDocK]⟩

/-- C4: the search provider retries a rate-limited (HTTP 429) request after a
flat 5000 ms delay until an attempt succeeds (k rate-limited attempts are
followed by k waits and a final successful request), and any other failure of
the first attempt (HTTP status other than 429, or a network error) propagates
immediately after the single request, with no wait and no retry. -/
theorem searchPapers_rate_limit_policy (env : Env) (q : String) (l : Nat) :
    (∀ (k fuel : Nat) (docs : List Document), k < fuel →
      (∀ i, i < k → env.searchResp q l i = SearchResp.httpError 429) →
      env.searchResp q l k = SearchResp.ok docs →
      searchPapers env fuel q l =
        (Except.ok docs,
          (List.replicate k [Ev.search q l, Ev.wait 5000]).flatten ++ [Ev.search q l])) ∧
    (∀ (fuel s : Nat), 0 < fuel → s ≠ 429 → env.searchResp q l 0 = SearchResp.httpError s →
      searchPapers env fuel q l = (Except.error (SearchErr.httpError s), [Ev.search q l])) ∧
    (∀ (fuel : Nat), 0 < fuel → env.searchResp q l 0 = SearchResp.networkError →
      searchPapers env fuel q l = (Except.error SearchErr.networkError, [Ev.search q l])) := by
  refine ⟨?_, ?_, ?_⟩
  · intro k fuel docs hkf h429 hok
    have hfe : fuel = k + ((fuel - k - 1) + 1) := by omega
    rw [searchPapers, hfe,
      spAux_429_shift env q l k 0 ((fuel - k - 1) + 1) (fun i hi => by simpa using h429 i hi),
      spAux_ok env q l (0 + k) (fuel - k - 1) docs (by simpa using hok)]
  · intro fuel s hfuel hs h
    cases fuel with
    | zero => omega
    | succ f => exact spAux_http env q l 0 f s h hs
  · intro fuel hfuel h
    cases fuel with
    | zero => omega
    | succ f => exact spAux_net env q l 0 f h

/-- C4 witness: one rate-limited attempt followed by a success waits exactly
once; an HTTP 500 on the first attempt propagates with no retry. -/
theorem searchPapers_rate_limit_witness :
    searchPapers wEnvRL 2 "q" 5 =
      (Except.ok [wDocK],
        (List.replicate 1 [Ev.search "q" 5, Ev.wait 5000]).flatten ++ [Ev.search "q" 5]) ∧
    searchPapers wEnvErr 3 "q" 5 = (Except.error (SearchErr.httpError 500), [Ev.search "q" 5]) :=
  ⟨(searchPapers_rate_limit_policy wEnvRL "q" 5).1 1 2 [wDocK] (by decide)
      (fun i hi => by
        have : i = 0 := by omega
        rw [this]; decide)
      (by decide),
   (searchPapers_rate_limit_policy wEnvErr "q" 5).2.1 3 500 (by decide) (by decide) (by decide)⟩

/-- C7: when the initial search succeeds with `docs`, the run contains the
gap-discovery completion call whose argument list is `gapsArgOf docs`, which
has exactly one entry per returned document and, position by position, holds
the document's abstract or the empty string when the abstract is absent or
empty (no filtering). -/
theorem generateReview_findGaps_argument
    (env : Env) (fuel : Nat) (topic : String) (limit : Nat) (docs : List Document)
    (hfuel : 0 < fuel)
    (hsearch : env.searchResp topic limit 0 = SearchResp.ok docs) :
    (∃ pre post, (generateReview env fuel topic limit).2
      = pre ++ Ev.chat (gapsMessages (gapsArgOf docs)) "gpt-3.5-turbo" 200 :: post) ∧
    (gapsArgOf docs).length = docs.length ∧
    (∀ (i : Nat) (hi : i < docs.length) (hg : i < (gapsArgOf docs).length),
      (gapsArgOf docs).get ⟨i, hg⟩ = ((docs.get ⟨i, hi⟩).abstract).getD "") := by
  have hsp := searchPapers_first_attempt env topic limit fuel docs hfuel hsearch
  refine ⟨?_, ?_, ?_⟩
  · refine ⟨[Ev.search topic limit] ++ (reviewLoop env docs).2, (devilAdvocate env fuel topic 3).2, ?_⟩
    rw [generateReview_trace_eq env fuel topic limit docs [Ev.search topic limit] hsp]
  · simp [gapsArgOf]
  · intro i hi hg
    have hmap : (gapsArgOf docs).get ⟨i, hg⟩
        = (if jsTruthy ((docs.get ⟨i, hi⟩).abstract) then ((docs.get ⟨i, hi⟩).abstract).getD "" else "") := by
      simp [gapsArgOf, List.get_eq_getElem, List.getElem_map]
    rw [hmap, jsOr_abstract]

/-- C7 witness: the theorem at `wEnv`, with the missing-abstract document at
position 1 mapped to the empty string. -/
theorem generateReview_findGaps_argument_witness :
    (∃ pre post, (generateReview wEnv 1 "graph databases" 2).2
      = pre ++ Ev.chat (gapsMessages (gapsArgOf [wDocA, wDocB])) "gpt-3.5-turbo" 200 :: post) ∧
    (gapsArgOf [wDocA, wDocB]).length = ([wDocA, wDocB] : List Document).length ∧
    (gapsArgOf [wDocA, wDocB]).get ⟨1, by decide⟩
      = ((([wDocA, wDocB] : List Document).get ⟨1, by decide⟩).abstract).getD "" :=
  ⟨(generateReview_findGaps_argument wEnv 1 "graph databases" 2 [wDocA, wDocB] (by decide) (by decide)).1,
   (generateReview_findGaps_argument wEnv 1 "graph databases" 2 [wDocA, wDocB] (by decide) (by decide)).2.1,
   (generateReview_findGaps_argument wEnv 1 "graph databases" 2 [wDocA, wDocB] (by decide) (by decide)).2.2
     1 (by decide) (by decide)⟩

/-- C8: the opposing-keywords stage splits the model output on commas with
optional following whitespace and truncates to the requested limit: the
result never has more than `limit` entries, it has exactly `limit` entries
whenever the split produced at least that many, and a concrete five-item
output truncated at 3 keeps the first three keywords. -/
theorem opposingKeywords_truncates :
    (∀ (s : String) (limit : Nat), (opposingKeywords s limit).length ≤ limit) ∧
    (∀ (s : String) (limit : Nat), limit ≤ (jsSplitCommaWs s).length →
      (opposingKeywords s limit).length = limit) ∧
    opposingKeywords "alpha, beta,gamma, delta, epsilon" 3 = ["alpha", "beta", "gamma"] := by
  refine ⟨?_, ?_, by decide⟩
  · intro s limit
    simp [opposingKeywords]
  · intro s limit h
    simp [opposingKeywords]
    omega

/-- C8 witness: a four-item model output truncated at limit 3 has exactly 3
entries. -/
theorem opposingKeywords_truncates_witness :
    (opposingKeywords "a, b, c, d" 3).length = 3 :=
  opposingKeywords_truncates.2.1 "a, b, c, d" 3 (by decide)

/-- C9: when both search stages succeed, the report is assembled exactly from
the initial-search documents (one section each) and the opposing-viewpoints
documents, and every one of those documents was returned by a search-provider
response of this run whose request appears in the run's event trace: the
pipeline surfaces no document it did not receive from the search provider. -/
theorem generateReview_no_fabricated_documents
    (env : Env) (fuel : Nat) (topic : String) (limit : Nat)
    (papers ops : List Document) (tr1 tr2 : List Ev)
    (hsp : searchPapers env fuel topic limit = (Except.ok papers, tr1))
    (hdv : devilAdvocate env fuel topic 3 = (Except.ok ops, tr2)) :
    (generateReview env fuel topic limit).1 =
      Except.ok ("# Literature Review on " ++ topic ++ "\n\n"
        ++ concatList (papers.map (docSectionStr env))
        ++ "# Research Gaps\n" ++ (discoverGaps env (gapsArgOf papers)).1 ++ "\n\n"
        ++ "# Opposing Viewpoints\n"
        ++ concatList (ops.map (fun op => "- **" ++ op.title ++ "**: " ++ op.url ++ "\n"))) ∧
    ∀ d, d ∈ papers ++ ops →
      ∃ qq ll k ds, env.searchResp qq ll k = SearchResp.ok ds ∧ d ∈ ds ∧
        Ev.search qq ll ∈ (generateReview env fuel topic limit).2 := by
  have hmain := generateReview_ok_eq env fuel topic limit papers ops tr1 tr2 hsp hdv
  have htr : (generateReview env fuel topic limit).2 =
      tr1 ++ (reviewLoop env papers).2
        ++ Ev.chat (gapsMessages (gapsArgOf papers)) "gpt-3.5-turbo" 200 :: tr2 := by
    rw [hmain]
  refine ⟨by rw [hmain, ← reviewLoop_fst], ?_⟩
  intro d hd
  rcases List.mem_append.mp hd with hp | ho
  · obtain ⟨⟨k, hk⟩, hmem⟩ := searchPapers_ok_mem env topic limit fuel papers tr1 hsp
    refine ⟨topic, limit, k, papers, hk, hp, ?_⟩
    rw [htr]
    exact List.mem_append_left _ (List.mem_append_left _ hmem)
  · obtain ⟨ltr, hlp, hltr⟩ := devilAdvocate_ok_parts env fuel topic 3 ops tr2 hdv
    obtain ⟨qq, k, ds, hk, hds, hmem⟩ := devilLoop_mem env fuel _ ops ltr hlp d ho
    refine ⟨qq, 1, k, ds, hk, hds, ?_⟩
    rw [htr]
    refine List.mem_append_right _ ?_
    refine List.mem_cons_of_mem _ ?_
    rw [hltr]
    exact List.mem_cons_of_mem _ hmem

/-- C9 witness: the opposing-viewpoints document of the concrete run is
provided by a recorded search response. -/
theorem generateReview_no_fabricated_documents_witness :
    ∃ qq ll k ds, wEnv.searchResp qq ll k = SearchResp.ok ds ∧ wDocK ∈ ds ∧
      Ev.search qq ll ∈ (generateReview wEnv 1 "graph databases" 2).2 :=
  (generateReview_no_fabricated_documents wEnv 1 "graph databases" 2
      [wDocA, wDocB] [wDocK, wDocK, wDocK] [Ev.search "graph databases" 2] wDevTr
      (by rfl) (by rfl)).2 wDocK (by decide)

end RT

namespace FA

section FARetryLemmas

variable {α : Type}

lemma retryGo_ok (fn : Nat → Except JsError α) (a r : Nat) (v : α) (h : fn a = Except.ok v) :
    retryGo fn a (r + 1) = (RetryOutcome.success v, [REv.invoke a]) := by
  simp [retryGo, h]

lemma retryGo_throw (fn : Nat → Except JsError α) (a r : Nat) (e : JsError)
    (h : fn a = Except.error e) (hc : r = 0 ∨ e.status = some 401) :
    retryGo fn a (r + 1) = (RetryOutcome.failure e, [REv.invoke a]) := by
  simp only [retryGo, h]
  rw [if_pos hc]

lemma retryGo_retry (fn : Nat → Except JsError α) (a r : Nat) (e : JsError)
    (h : fn a = Except.error e) (h1 : r ≠ 0) (h2 : e.status ≠ some 401) :
    retryGo fn a (r + 1) =
      ((retryGo fn (a + 1) r).1,
        REv.invoke a :: REv.wait (2 ^ a * 1000) :: (retryGo fn (a + 1) r).2) := by
  simp only [retryGo, h]
  rw [if_neg (by tauto)]

lemma retryGo_all_fail (fn : Nat → Except JsError α) (errAt : Nat → JsError) :
    ∀ (r a : Nat),
      (∀ i, a ≤ i → i ≤ a + r → fn i = Except.error (errAt i)) →
      (∀ i, a ≤ i → i < a + r → (errAt i).status ≠ some 401) →
      (retryGo fn a (r + 1)).1 = RetryOutcome.failure (errAt (a + r)) := by
  intro r
  induction r with
  | zero =>
    intro a hf _
    rw [retryGo_throw fn a 0 (errAt a) (hf a le_rfl (by omega)) (Or.inl rfl)]
    simp
  | succ r ih =>
    intro a hf hs
    rw [retryGo_retry fn a (r + 1) (errAt a) (hf a le_rfl (by omega)) (by omega)
      (hs a le_rfl (by omega))]
    have hsh := ih (a + 1) (fun i hi1 hi2 => hf i (by omega) (by omega))
      (fun i hi1 hi2 => hs i (by omega) (by omega))
    have hidx : a + 1 + r = a + (r + 1) := by omega
    rw [hidx] at hsh
    exact hsh

end FARetryLemmas

/-- C3: the generic retry helper invokes the operation up to `maxRetries`
times: an operation failing twice retryably then succeeding under
maxRetries = 3 is invoked exactly three times, with waits of 2^1 and 2^2
seconds between attempts, and returns the success value; an operation whose
first failure is HTTP 401 is invoked exactly once and its failure propagates
with no wait; and when every allowed attempt fails retryably the last
failure is re-raised. -/
theorem retryWithBackoff_policy :
    (∀ (α : Type) (fn : Nat → Except JsError α) (e1 e2 : JsError) (v : α),
      fn 1 = Except.error e1 → e1.status ≠ some 401 →
      fn 2 = Except.error e2 → e2.status ≠ some 401 →
      fn 3 = Except.ok v →
      retryWithBackoff fn 3 =
        (RetryOutcome.success v,
          [REv.invoke 1, REv.wait 2000, REv.invoke 2, REv.wait 4000, REv.invoke 3])) ∧
    (∀ (α : Type) (fn : Nat → Except JsError α) (e : JsError) (m : Int), 1 ≤ m →
      fn 1 = Except.error e → e.status = some 401 →
      retryWithBackoff fn m = (RetryOutcome.failure e, [REv.invoke 1])) ∧
    (∀ (α : Type) (fn : Nat → Except JsError α) (errAt : Nat → JsError) (m : Nat), 1 ≤ m →
      (∀ i, 1 ≤ i → i ≤ m → fn i = Except.error (errAt i)) →
      (∀ i, 1 ≤ i → i < m → (errAt i).status ≠ some 401) →
      (retryWithBackoff fn ((m : Nat) : Int)).1 = RetryOutcome.failure (errAt m)) := by
  refine ⟨?_, ?_, ?_⟩
  · intro α fn e1 e2 v h1 hs1 h2 hs2 h3
    have g3 : retryGo fn 3 1 = (RetryOutcome.success v, [REv.invoke 3]) :=
      retryGo_ok fn 3 0 v h3
    have g2 : retryGo fn 2 2 =
        ((retryGo fn 3 1).1, REv.invoke 2 :: REv.wait 4000 :: (retryGo fn 3 1).2) :=
      retryGo_retry fn 2 1 e2 h2 (by omega) hs2
    have g1 : retryGo fn 1 3 =
        ((retryGo fn 2 2).1, REv.invoke 1 :: REv.wait 2000 :: (retryGo fn 2 2).2) :=
      retryGo_retry fn 1 2 e1 h1 (by omega) hs1
    show retryGo fn 1 (Int.toNat 3) = _
    rw [show Int.toNat 3 = 3 from rfl, g1, g2, g3]
  · intro α fn e m hm h1 hs
    obtain ⟨k, hk⟩ : ∃ k, m.toNat = k + 1 := ⟨m.toNat - 1, by omega⟩
    show retryGo fn 1 m.toNat = _
    rw [hk, retryGo_throw fn 1 k e h1 (Or.inr hs)]
  · intro α fn errAt m hm hf hs
    obtain ⟨k, hk⟩ : ∃ k, m = k + 1 := ⟨m - 1, by omega⟩
    subst hk
    have ht : (((k + 1 : Nat) : Int)).toNat = k + 1 := by omega
    show (retryGo fn 1 (((k + 1 : Nat) : Int)).toNat).1 = _
    rw [ht]
    have hall := retryGo_all_fail fn errAt k 1
      (fun i hi1 hi2 => hf i hi1 (by omega))
      (fun i hi1 hi2 => hs i hi1 (by omega))
    rw [show 1 + k = k + 1 from by omega] at hall
    exact hall

/-- C3 witness: the concrete fail-fail-succeed operation is invoked three
times with the two exponential waits; the always-401 operation is invoked
once; two retryable failures under maxRetries = 2 re-raise the last error. -/
theorem retryWithBackoff_policy_witness :
    retryWithBackoff wFn 3 =
      (RetryOutcome.success 7,
        [REv.invoke 1, REv.wait 2000, REv.invoke 2, REv.wait 4000, REv.invoke 3]) ∧
    retryWithBackoff wFn401 3 = (RetryOutcome.failure ⟨some 401, "auth"⟩, [REv.invoke 1]) ∧
    (retryWithBackoff wFn (((2 : Nat) : Int))).1 = RetryOutcome.failure ⟨some 500, "boom"⟩ :=
  ⟨retryWithBackoff_policy.1 Nat wFn ⟨some 500, "boom"⟩ ⟨some 500, "boom"⟩ 7
      rfl (by decide) rfl (by decide) rfl,
   retryWithBackoff_policy.2.1 Nat wFn401 ⟨some 401, "auth"⟩ 3 (by decide) rfl (by decide),
   retryWithBackoff_policy.2.2 Nat wFn (fun _ => ⟨some 500, "boom"⟩) 2 (by decide)
     (fun i hi1 hi2 => by simp [wFn, hi2])
     (fun i hi1 hi2 => by simp)⟩

/-- C10: a maxRetries below 1 (zero or negative) makes the retry helper
return `undefined` without invoking the operation and without raising. -/
theorem retryWithBackoff_below_one_skips
    (α : Type) (fn : Nat → Except JsError α) (m : Int) (h : m < 1) :
    retryWithBackoff fn m = (RetryOutcome.undef, []) := by
  have hz : m.toNat = 0 := by omega
  show retryGo fn 1 m.toNat = _
  rw [hz]
  rfl

/-- C10 witness: maxRetries 0 and -5 both yield `undefined` with no events. -/
theorem retryWithBackoff_below_one_witness :
    retryWithBackoff wFn 0 = (RetryOutcome.undef, []) ∧
    retryWithBackoff wFn (-5) = (RetryOutcome.undef, []) :=
  ⟨retryWithBackoff_below_one_skips Nat wFn 0 (by decide),
   retryWithBackoff_below_one_skips Nat wFn (-5) (by decide)⟩

/-- C5 (bug): when the completion provider rejects the analysis request with
HTTP 429, `analyzeFinancialData` rethrows "Rate limit exceeded. Please try
again in a few moments.", which does NOT contain the substring
"Rate limited" that the controller's catch block tests for, so the handler
responds 500 — not a 429-class response as specified. The second component
confirms no automatic retry: exactly one completion call is made. -/
theorem analyze_rate_limited_responds_500
    (env : CtrlEnv) (d parsed msg : String)
    (hparse : env.parseJSON d = Except.ok parsed)
    (hval : env.validate parsed = Except.ok ())
    (hprov : env.providerResp parsed = Except.error ⟨some 429, msg⟩) :
    analyzeDataHandler env (some d) "json" = (500, 1) := by
  have hinc : jsIncludes "Rate limit exceeded. Please try again in a few moments."
      "Rate limited" = false := by decide
  simp [analyzeDataHandler, hparse, hval, analyzeFinancialDataSvc, hprov,
    llmErrorToMessage, hinc]

/-- C5 witness: a concrete 429 provider response yields HTTP 500 with one
completion call. -/
theorem analyze_rate_limited_responds_500_witness :
    analyzeDataHandler wCtrlEnv (some "{}") "json" = (500, 1) :=
  analyze_rate_limited_responds_500 wCtrlEnv "{}" "{}"
    "Request failed with status code 429" rfl rfl rfl

/-- C6 (bug): a request carrying an uploaded file whose extension is neither
"csv" nor "json" takes the unsupported-format early return, which replies 400
before the `fs.unlinkSync` cleanup and outside the catch block: the uploaded
temporary file is NOT removed on this outcome path, contradicting the claim
that the handler removes the file on every outcome path. -/
theorem analyzeFile_unsupported_format_skips_cleanup
    (env : CtrlEnv) (f : UploadedFile)
    (h1 : jsExtension f.originalname ≠ "csv")
    (h2 : jsExtension f.originalname ≠ "json") :
    analyzeFileHandler env (some f) = (400, false) := by
  simp [analyzeFileHandler, h1, h2]

/-- C6 witness: the concrete upload "data.txt" gets a 400 response and its
temporary file is left in place. -/
theorem analyzeFile_unsupported_format_witness :
    analyzeFileHandler wCtrlEnv (some wUpload) = (400, false) :=
  analyzeFile_unsupported_format_skips_cleanup wCtrlEnv wUpload (by decide) (by decide)

end FA
